import Mathlib

/-!
Verification development for the Inventory Availability Snapshot Pipeline
(`src/app/api/snapshot/inventory/route.ts`, the header-mapped revision whose
`POST` handler spans lines 495-703).  The TypeScript route is shallowly
embedded below: spreadsheet cells are `Option String` (a missing cell is
`none`), JavaScript numbers are `ℚ`, fallible platform calls are
`Except String`, and the Google-Sheets snapshot tab is a `List SnapshotRow`
threaded through the handler explicitly.
-/

unseal Rat.sub Rat.add Rat.mul Rat.inv

deriving instance DecidableEq for Except

namespace Snapshot

/-- Opaque identifiers returned by `fetchVariantBySkuGraphQL` after the
`gid://shopify/...` URI forms are reduced to their trailing segment. -/
structure VariantInfo where
  variantId : String
  inventoryItemId : String
deriving DecidableEq, Repr

/-- One entry of the `inventory_levels` array of the REST response used by
`fetchAvailableInventoryREST`.  `available` is `some q` when the JSON field is
present and of number type (the `typeof level?.available === "number"` test),
`none` otherwise. -/
structure InvLevel where
  locationId : String
  available : Option ℚ
deriving DecidableEq, Repr

/-- The REST response consumed by `fetchAvailableInventoryREST`: `ok` is
`res.ok`, and `levels` is `json?.inventory_levels || []`. -/
structure InvResponse where
  ok : Bool
  levels : List InvLevel
deriving DecidableEq, Repr

/-- An element of the `errors` accumulator of the handler. -/
structure RunError where
  sku : String
  stage : String
  detail : String
deriving DecidableEq, Repr

/-- One element of `snapshotRows`: the 19-column record pushed at lines
657-677 of the route (columns A through S of `inventory_snapshots`). -/
structure SnapshotRow where
  snapshotDate : String
  snapshotTs : String
  runId : String
  sku : String
  colorway : String
  size : String
  classValue : String
  sizeClass : String
  safetyStock : ℚ
  variantId : String
  inventoryItemId : String
  locationId : String
  availableQty : ℚ
  balanceVsSafety : ℚ
  productClassWeight : ℕ
  sizeClassWeight : ℕ
  totalWeight : ℕ
  inStockFlag : ℕ
  weightedInStock : ℕ
deriving DecidableEq, Repr

/-- A spreadsheet cell value as it appears in the heterogeneous array pushed
onto `snapshotRows`: either a string or a number. -/
inductive CellVal where
  | str (s : String)
  | num (q : ℚ)
deriving DecidableEq, Repr

/-- The exact heterogeneous array pushed onto `snapshotRows` for one SKU
(route lines 657-677), in spreadsheet column order A..S. -/
def rowCells (r : SnapshotRow) : List CellVal :=
  [ .str r.snapshotDate       -- A snapshot_date_et
  , .str r.snapshotTs         -- B snapshot_ts_et
  , .str r.runId              -- C run_id
  , .str r.sku                -- D sku
  , .str r.colorway           -- E colorway
  , .str r.size               -- F size
  , .str r.classValue         -- G class
  , .str r.sizeClass          -- H size_class
  , .num r.safetyStock        -- I safety_stock
  , .str r.variantId          -- J shopify_variant_id
  , .str r.inventoryItemId    -- K inventory_item_id
  , .str r.locationId         -- L location_id
  , .num r.availableQty       -- M available_qty
  , .num r.balanceVsSafety    -- N balance_vs_safety
  , .num (r.productClassWeight : ℚ) -- O product_class_weight
  , .num (r.sizeClassWeight : ℚ)    -- P size_class_weight
  , .num (r.totalWeight : ℚ)        -- Q total_weight
  , .num (r.inStockFlag : ℚ)        -- R in_stock_flag
  , .num (r.weightedInStock : ℚ) ]  -- S weighted_in_stock

/-- Whitespace removal at both ends of a character list. -/
def jsTrimList (l : List Char) : List Char :=
  ((l.dropWhile Char.isWhitespace).reverse.dropWhile Char.isWhitespace).reverse

/-- Models the JavaScript `.trim()` (drop whitespace at both ends), written
over the character list so that it evaluates by kernel reduction. -/
def jsTrim (s : String) : String := String.mk (jsTrimList s.data)

/-- Models the JavaScript `.toLowerCase()` on the ASCII data in play. -/
def jsToLower (s : String) : String := String.mk (s.data.map Char.toLower)

/-- Models the JavaScript `.toUpperCase()` on the ASCII data in play. -/
def jsToUpper (s : String) : String := String.mk (s.data.map Char.toUpper)

/-- Helper for `normalizeHeader`: the effect of `.replace(/\s+/g, "_")`,
rewriting each maximal whitespace run to a single underscore.  The boolean
argument records whether the previously consumed character was whitespace. -/
def collapseWs : List Char → Bool → List Char
  | [], _ => []
  | c :: rest, prevWs =>
    if c.isWhitespace then
      if prevWs then collapseWs rest true else '_' :: collapseWs rest true
    else c :: collapseWs rest false

/-- Embeds `normalizeHeader` (route lines 343-350): trim, lower-case,
whitespace runs to `_`, then strip everything outside `[a-z0-9_]`. -/
def normalizeHeader (h : String) : String :=
  String.mk ((collapseWs (jsToLower (jsTrim h)).toList false).filter
    (fun c => c.isLower || c.isDigit || c == '_'))

/-- Embeds `buildHeaderIndexMap` (route lines 352-359) as a lookup function.
The JavaScript object assignment `map[key] = i` lets a later duplicate header
overwrite an earlier one, hence the `getLast?`; empty normalized headers are
never inserted. -/
def buildHeaderIndexMap (headerRow : List String) (key : String) : Option ℕ :=
  if key = "" then none
  else ((List.range headerRow.length).filter
    (fun i => normalizeHeader ((headerRow.get? i).getD "") = key)).getLast?

/-- Embeds `getByHeader` (route lines 361-373): the first synonym whose
header exists wins (returning that cell even if it is empty in this row),
otherwise the fixed fallback column is consulted. -/
def getByHeader (row : List String) (headerMap : String → Option ℕ)
    (keys : List String) (fallbackIndex : Option ℕ) : Option String :=
  match keys.findSome? headerMap with
  | some idx => row.get? idx
  | none => fallbackIndex.bind (fun i => row.get? i)

/-- Value of a digit character. -/
def digitVal (c : Char) : ℕ := c.toNat - 48

/-- Numeric value of a digit string (most significant first). -/
def natOfDigits (l : List Char) : ℕ := l.foldl (fun a c => a * 10 + digitVal c) 0

/-- Parses an unsigned JavaScript decimal literal: digits with an optional
fractional part, as in `"12"`, `"12.5"`, `".5"`, `"12."`. -/
def parseUnsigned (l : List Char) : Option ℚ :=
  let ip := l.takeWhile Char.isDigit
  match l.dropWhile Char.isDigit with
  | [] => if ip.isEmpty then none else some (natOfDigits ip)
  | '.' :: fp =>
    if fp.all Char.isDigit && !(ip.isEmpty && fp.isEmpty) then
      some ((natOfDigits ip : ℚ) + (natOfDigits fp : ℚ) / ((10 : ℚ) ^ fp.length))
    else none
  | _ => none

/-- Models the JavaScript `Number(s)` coercion on the string contents seen in
the reference sheet: trimmed-empty input is `0`, an optionally signed decimal
literal is its value, anything else is NaN (`none`).  Exponent, hexadecimal
and `Infinity` forms do not occur in sheet data and are mapped to NaN. -/
def jsStringToNumber (s : String) : Option ℚ :=
  let t := jsTrim s
  if t = "" then some 0
  else
    match t.toList with
    | '-' :: rest => (parseUnsigned rest).map (fun q => -q)
    | '+' :: rest => parseUnsigned rest
    | l => parseUnsigned l

/-- Embeds `Number(safetyStockRaw || 0) || 0` (route line 606): a missing or
empty cell is falsy, so it coerces to `0`; a non-numeric cell yields NaN,
which `|| 0` also turns into `0`; a numeric cell passes its value through
(`0` itself being preserved by `|| 0`). -/
def parseSafetyStock (cell : Option String) : ℚ :=
  match cell with
  | none => 0
  | some s =>
    if s = "" then 0
    else
      match jsStringToNumber s with
      | none => 0
      | some q => q

/-- Embeds `PRODUCT_CLASS_WEIGHT` (route lines 376-381). -/
def PRODUCT_CLASS_WEIGHT (c : String) : Option ℕ :=
  if c = "A" then some 4
  else if c = "B" then some 3
  else if c = "C" then some 2
  else if c = "LE" then some 1
  else none

/-- Embeds `SIZE_CLASS_WEIGHT` (route lines 384-387). -/
def SIZE_CLASS_WEIGHT (c : String) : Option ℕ :=
  if c = "A" then some 3
  else if c = "B" then some 1
  else none

/-- Embeds `SIZE_CLASS_A_SET` (route lines 390-397). -/
def SIZE_CLASS_A_SET : List String :=
  ["YTH-MD", "YTH-LG", "YTH-XL", "SR-SM", "SR-MD", "SR-LG"]

/-- Embeds `deriveSizeClassFromSize` (route lines 399-402). -/
def deriveSizeClassFromSize (sizeRaw : String) : String :=
  if jsToUpper (jsTrim sizeRaw) ∈ SIZE_CLASS_A_SET then "A" else "B"

/-- Embeds the response handling of `fetchAvailableInventoryREST` (route
lines 484-492): a non-ok response is `0`; otherwise the first level whose
`location_id` matches is used, defaulting to `0` when no level matches or
its `available` field is not a number. -/
def fetchAvailableInventoryREST (locationId : String) (resp : InvResponse) : ℚ :=
  if !resp.ok then 0
  else
    match resp.levels.find? (fun l => l.locationId == locationId) with
    | none => 0
    | some l =>
      match l.available with
      | some q => q
      | none => 0

/-- Column fallback indexes (route lines 566-572, `FALLBACK`). -/
def FALLBACK_colorway : ℕ := 3
/-- Column fallback index for `size`. -/
def FALLBACK_size : ℕ := 4
/-- Column fallback index for `class`. -/
def FALLBACK_class : ℕ := 12
/-- Column fallback index for `safety_stock`. -/
def FALLBACK_safety : ℕ := 14
/-- Column fallback index for `sku`. -/
def FALLBACK_sku : ℕ := 17

/-- SKU extraction of one reference row (route lines 578-580):
`(getByHeader(r, headerMap, ["sku"], FALLBACK.sku) || "").toString().trim()`. -/
def skuOfRow (headerMap : String → Option ℕ) (r : List String) : String :=
  jsTrim ((getByHeader r headerMap ["sku"] (some FALLBACK_sku)).getD "")

/-- Colorway extraction of one reference row (route lines 583-587). -/
def colorwayOfRow (headerMap : String → Option ℕ) (r : List String) : String :=
  jsTrim ((getByHeader r headerMap ["colorway"] (some FALLBACK_colorway)).getD "")

/-- Size extraction of one reference row (route lines 589-591). -/
def sizeOfRow (headerMap : String → Option ℕ) (r : List String) : String :=
  jsTrim ((getByHeader r headerMap ["size"] (some FALLBACK_size)).getD "")

/-- Class extraction of one reference row (route lines 593-598), including
the `.toUpperCase()` normalization. -/
def classOfRow (headerMap : String → Option ℕ) (r : List String) : String :=
  jsToUpper (jsTrim ((getByHeader r headerMap ["class"] (some FALLBACK_class)).getD ""))

/-- Safety-stock extraction of one reference row (route lines 600-606). -/
def safetyOfRow (headerMap : String → Option ℕ) (r : List String) : ℚ :=
  parseSafetyStock (getByHeader r headerMap ["safety_stock", "safety"] (some FALLBACK_safety))

/-- The scoring computation of the loop body (route lines 608-677): size
class, weights, balance, the safety-aware binary in-stock flag and its
weighted contribution, assembled into the pushed 19-column record. -/
def mkRow (snapshotDate snapshotTs runId locationId sku colorway size classValue : String)
    (safetyStock : ℚ) (vi : VariantInfo) (availableQty : ℚ) : SnapshotRow :=
  let sizeClass := deriveSizeClassFromSize size
  let productClassWeight := (PRODUCT_CLASS_WEIGHT classValue).getD 0
  let sizeClassWeight := (SIZE_CLASS_WEIGHT sizeClass).getD 0
  let totalWeight := productClassWeight * sizeClassWeight
  let balanceVsSafety := availableQty - safetyStock
  -- inStockBinary = safetyStock > 0 ? availableQty >= safetyStock : availableQty > 0
  let inStockFlag : ℕ :=
    if safetyStock > 0 then (if availableQty ≥ safetyStock then 1 else 0)
    else (if availableQty > 0 then 1 else 0)
  let weightedInStock := inStockFlag * totalWeight
  { snapshotDate, snapshotTs, runId, sku, colorway, size, classValue, sizeClass,
    safetyStock, variantId := vi.variantId, inventoryItemId := vi.inventoryItemId,
    locationId, availableQty, balanceVsSafety, productClassWeight, sizeClassWeight,
    totalWeight, inStockFlag, weightedInStock }

/-- The per-run context threaded through the loop body: the run-constant
strings, the header map built from the first `Summary` row, and the two
Shopify calls.  `variantSvc` models `fetchVariantBySkuGraphQL` (`.error` is a
thrown network/HTTP failure, `.ok none` is "no variant found"); `invSvc`
models the `inventory_levels.json` fetch (`.error` is a thrown network
failure, the response body handling being `fetchAvailableInventoryREST`). -/
structure RunCtx where
  snapshotDate : String
  snapshotTs : String
  runId : String
  locationId : String
  headerMap : String → Option ℕ
  variantSvc : String → Except String (Option VariantInfo)
  invSvc : String → Except String InvResponse

/-- Outcome of the loop body for one reference row. -/
inductive RowOutcome where
  | skippedEmptySku
  | lookupFailed (e : RunError)
  | emitted (row : SnapshotRow)
deriving DecidableEq, Repr

/-- Embeds one iteration of the `for (const r of rows)` loop (route lines
577-677): skip on empty SKU, record an error and skip when the variant
lookup finds nothing, otherwise resolve inventory and emit a scored row.
A thrown service error propagates as `.error`. -/
def processRefRow (ctx : RunCtx) (r : List String) : Except String RowOutcome :=
  if skuOfRow ctx.headerMap r = "" then .ok .skippedEmptySku
  else
    match ctx.variantSvc (skuOfRow ctx.headerMap r) with
    | .error e => .error e
    | .ok none =>
      .ok (.lookupFailed
        { sku := skuOfRow ctx.headerMap r
          stage := "variant_lookup"
          detail := "Variant not found by SKU via GraphQL (query sku:\"" ++
            skuOfRow ctx.headerMap r ++ "\")" })
    | .ok (some vi) =>
      match ctx.invSvc vi.inventoryItemId with
      | .error e => .error e
      | .ok resp =>
        .ok (.emitted (mkRow ctx.snapshotDate ctx.snapshotTs ctx.runId ctx.locationId
          (skuOfRow ctx.headerMap r) (colorwayOfRow ctx.headerMap r)
          (sizeOfRow ctx.headerMap r) (classOfRow ctx.headerMap r)
          (safetyOfRow ctx.headerMap r) vi (fetchAvailableInventoryREST ctx.locationId resp)))

/-- Runs the loop over all data rows, accumulating `snapshotRows` and
`errors` in row order; the first thrown error aborts the whole loop (and
hence, in `POST`, the run). -/
def buildSnapshotRows (ctx : RunCtx) : List (List String) →
    Except String (List SnapshotRow × List RunError)
  | [] => .ok ([], [])
  | r :: rest =>
    match processRefRow ctx r with
    | .error e => .error e
    | .ok .skippedEmptySku => buildSnapshotRows ctx rest
    | .ok (.lookupFailed e) =>
      match buildSnapshotRows ctx rest with
      | .error m => .error m
      | .ok (rs, es) => .ok (rs, e :: es)
    | .ok (.emitted row) =>
      match buildSnapshotRows ctx rest with
      | .error m => .error m
      | .ok (rs, es) => .ok (row :: rs, es)

/-- The environment variables the handler reads.  `none` models an unset
variable; the empty string is falsy and treated as unset by `requireEnv`. -/
structure Env where
  CRON_SECRET : Option String
  GOOGLE_SHEET_ID : Option String
  GOOGLE_CLIENT_EMAIL : Option String
  GOOGLE_PRIVATE_KEY : Option String
  SHOPIFY_STORE_DOMAIN : Option String
  SHOPIFY_ADMIN_TOKEN : Option String
  SHOPIFY_API_VERSION : Option String
  SHOPIFY_LOCATION_ID : Option String

/-- Embeds `requireEnv` (route lines 337-341): throws on an unset or falsy
(empty) variable, yields its value otherwise. -/
def requireEnv (name : String) (v : Option String) : Except String String :=
  match v with
  | none => .error ("Missing env var: " ++ name)
  | some s => if s = "" then .error ("Missing env var: " ++ name) else .ok s

/-- The block of `requireEnv` calls at route lines 503-514, in source order;
the result is the resolved `SHOPIFY_LOCATION_ID` (the only required value
the pure model consumes downstream). -/
def checkEnvs (e : Env) : Except String String :=
  match requireEnv "GOOGLE_SHEET_ID" e.GOOGLE_SHEET_ID with
  | .error m => .error m
  | .ok _ =>
  match requireEnv "GOOGLE_CLIENT_EMAIL" e.GOOGLE_CLIENT_EMAIL with
  | .error m => .error m
  | .ok _ =>
  match requireEnv "GOOGLE_PRIVATE_KEY" e.GOOGLE_PRIVATE_KEY with
  | .error m => .error m
  | .ok _ =>
  match requireEnv "SHOPIFY_STORE_DOMAIN" e.SHOPIFY_STORE_DOMAIN with
  | .error m => .error m
  | .ok _ =>
  match requireEnv "SHOPIFY_ADMIN_TOKEN" e.SHOPIFY_ADMIN_TOKEN with
  | .error m => .error m
  | .ok _ =>
  match requireEnv "SHOPIFY_API_VERSION" e.SHOPIFY_API_VERSION with
  | .error m => .error m
  | .ok _ =>
  requireEnv "SHOPIFY_LOCATION_ID" e.SHOPIFY_LOCATION_ID

/-- The whole observable input of one invocation: environment, request secret,
current contents of the `inventory_snapshots` tab, the `Summary!A1:Z` values
(header row first), the two Shopify services, and the clock reads
(`getETDate()`, `getETTimestamp()`, `Date.now()`). -/
structure World where
  env : Env
  reqCronSecret : Option String
  snapshotTable : List SnapshotRow
  refSheet : List (List String)
  variantSvc : String → Except String (Option VariantInfo)
  invSvc : String → Except String InvResponse
  todayDate : String
  todayTs : String
  nowMs : ℕ

/-- The JSON responses `POST` can produce. -/
inductive ApiResponse where
  | unauthorized
  | skipped (snapshotDate : String)
  | ok (snapshotDate : String) (rowsInserted : ℕ) (errorsCount : ℕ) (errors : List RunError)
  | error (message : String)
deriving DecidableEq, Repr

/-- The dates column `A:A` of the snapshot tab, flattened
(`existingDates.data.values?.flat() || []`, route line 538). -/
def datesOf (t : List SnapshotRow) : List String := t.map (·.snapshotDate)

/-- The `RunCtx` that `POST` hands the loop once the environment resolved
`locationId`. -/
def mkCtx (w : World) (locationId : String) : RunCtx :=
  { snapshotDate := w.todayDate
    snapshotTs := w.todayTs
    runId := w.todayDate ++ "-" ++ toString w.nowMs
    locationId
    headerMap := buildHeaderIndexMap (w.refSheet.headD [])
    variantSvc := w.variantSvc
    invSvc := w.invSvc }

/-- The handler body inside the `try` (route lines 503-696), with the
`catch` folded in: a thrown error becomes the 500 `error` response with the
snapshot tab untouched.  The duplicate-day guard (lines 532-545) precedes
the `Summary` length check (lines 553-559); the single batch append (lines
681-688) runs only when `snapshotRows` is non-empty. -/
def POSTbody (w : World) : ApiResponse × List SnapshotRow :=
  match checkEnvs w.env with
  | .error m => (.error m, w.snapshotTable)
  | .ok locationId =>
    if w.todayDate ∈ datesOf w.snapshotTable then (.skipped w.todayDate, w.snapshotTable)
    else if w.refSheet.length < 2 then
      (.error "Summary sheet has no rows to process", w.snapshotTable)
    else
      match buildSnapshotRows (mkCtx w locationId) (w.refSheet.drop 1) with
      | .error m => (.error m, w.snapshotTable)
      | .ok (snapshotRows, errors) =>
        (.ok w.todayDate snapshotRows.length errors.length (errors.take 25),
         if snapshotRows.isEmpty then w.snapshotTable
         else w.snapshotTable ++ snapshotRows)

/-- Embeds the exported `POST` (route lines 495-703): the `x-cron-secret`
check (`!secret || secret !== process.env.CRON_SECRET`) rejects before any
work, then the body runs.  Returns the response together with the resulting
snapshot tab contents. -/
def POST (w : World) : ApiResponse × List SnapshotRow :=
  match w.reqCronSecret with
  | none => (.unauthorized, w.snapshotTable)
  | some secret =>
    if secret = "" then (.unauthorized, w.snapshotTable)
    else if w.env.CRON_SECRET ≠ some secret then (.unauthorized, w.snapshotTable)
    else POSTbody w

/-- The rows a run appended: everything in the resulting tab beyond the
pre-run contents. -/
def newRows (w : World) : List SnapshotRow :=
  ((POST w).2).drop w.snapshotTable.length

/-- The authorization check passes. -/
def AuthOk (w : World) : Prop :=
  ∃ s, w.reqCronSecret = some s ∧ s ≠ "" ∧ w.env.CRON_SECRET = some s

/-- The field equations every row assembled by `mkRow` satisfies: the scoring
contract of the loop body stated over the fields of the row itself. -/
def RowWellFormed (r : SnapshotRow) : Prop :=
  r.sizeClass = deriveSizeClassFromSize r.size ∧
  r.productClassWeight = (PRODUCT_CLASS_WEIGHT r.classValue).getD 0 ∧
  r.sizeClassWeight = (SIZE_CLASS_WEIGHT r.sizeClass).getD 0 ∧
  r.totalWeight = r.productClassWeight * r.sizeClassWeight ∧
  r.balanceVsSafety = r.availableQty - r.safetyStock ∧
  r.inStockFlag = (if r.safetyStock > 0 then (if r.availableQty ≥ r.safetyStock then 1 else 0)
    else (if r.availableQty > 0 then 1 else 0)) ∧
  r.weightedInStock = r.inStockFlag * r.totalWeight

/-- Whether the loop emits a snapshot row for this reference row: non-empty
SKU and a variant found by the GraphQL lookup. -/
def rowEmits (ctx : RunCtx) (r : List String) : Bool :=
  (skuOfRow ctx.headerMap r != "") &&
    (match ctx.variantSvc (skuOfRow ctx.headerMap r) with
     | .ok (some _) => true
     | _ => false)

/-- Whether the loop records a `variant_lookup` error for this reference
row: non-empty SKU but no variant found. -/
def rowFails (ctx : RunCtx) (r : List String) : Bool :=
  (skuOfRow ctx.headerMap r != "") &&
    (match ctx.variantSvc (skuOfRow ctx.headerMap r) with
     | .ok none => true
     | _ => false)

/-- The cross-run invariant of the snapshot table: any two rows bearing the
same `snapshotDate` were written by the same run. -/
def DatesUnique (t : List SnapshotRow) : Prop :=
  ∀ r1 ∈ t, ∀ r2 ∈ t, r1.snapshotDate = r2.snapshotDate → r1.runId = r2.runId

section ConcreteWorlds

/-- A fully configured environment for concrete runs. -/
def envGood : Env :=
  { CRON_SECRET := some "s", GOOGLE_SHEET_ID := some "g",
    GOOGLE_CLIENT_EMAIL := some "e", GOOGLE_PRIVATE_KEY := some "k",
    SHOPIFY_STORE_DOMAIN := some "d", SHOPIFY_ADMIN_TOKEN := some "t",
    SHOPIFY_API_VERSION := some "v", SHOPIFY_LOCATION_ID := some "LOC1" }

/-- Concrete run: one tracked SKU `ABC` (class `A`, size `SR-MD`, safety
stock 10), variant lookup succeeding for every SKU, 5 units available at the
configured location. -/
def w0 : World :=
  { env := envGood
    reqCronSecret := some "s"
    snapshotTable := []
    refSheet := [["colorway", "size", "class", "safety_stock", "sku"],
                 ["RED", "SR-MD", "A", "10", "ABC"]]
    variantSvc := fun _ => .ok (some ⟨"77", "99"⟩)
    invSvc := fun _ => .ok ⟨true, [⟨"LOC1", some 5⟩]⟩
    todayDate := "2025-01-02"
    todayTs := "2025-01-02 03:04:05"
    nowMs := 0 }

/-- The single row `POST w0` appends. -/
def rowABC : SnapshotRow :=
  { snapshotDate := "2025-01-02", snapshotTs := "2025-01-02 03:04:05",
    runId := "2025-01-02-0", sku := "ABC", colorway := "RED", size := "SR-MD",
    classValue := "A", sizeClass := "A", safetyStock := 10, variantId := "77",
    inventoryItemId := "99", locationId := "LOC1", availableQty := 5,
    balanceVsSafety := -5, productClassWeight := 4, sizeClassWeight := 3,
    totalWeight := 12, inStockFlag := 0, weightedInStock := 0 }

/-- The same run started against the snapshot table `POST w0` produced
(second sequential invocation on the same calendar day). -/
def w0second : World := { w0 with snapshotTable := (POST w0).2 }

/-- Concrete run whose reference sheet holds a negative safety-stock cell
(`"-5"`) and a fractional one (`"2.5"`), with 3 units available. -/
def w4 : World :=
  { w0 with
    refSheet := [["colorway", "size", "class", "safety_stock", "sku"],
                 ["RED", "SR-MD", "A", "-5", "ABC"],
                 ["BLU", "XL", "LE", "2.5", "DEF"]]
    invSvc := fun _ => .ok ⟨true, [⟨"LOC1", some 3⟩]⟩ }

/-- Concrete run in which the inventory lookup returns a non-ok response. -/
def w7 : World :=
  { w0 with invSvc := fun _ => .ok ⟨false, [⟨"LOC1", some 5⟩]⟩ }

/-- Concrete world with an unset `GOOGLE_SHEET_ID`. -/
def wBadEnv : World := { w0 with env := { envGood with GOOGLE_SHEET_ID := none } }

/-- Concrete run in which every reference row is skipped: one empty SKU and
one SKU the variant lookup cannot find. -/
def w10 : World :=
  { w0 with
    refSheet := [["colorway", "size", "class", "safety_stock", "sku"],
                 ["RED", "SR-MD", "A", "10", ""],
                 ["BLU", "XL", "B", "1", "NOPE"]]
    variantSvc := fun _ => .ok none }

/-- The same day revisited after the zero-row run `w10`, now with the
variant lookup succeeding. -/
def w10second : World :=
  { w10 with
    snapshotTable := (POST w10).2
    variantSvc := fun _ => .ok (some ⟨"77", "99"⟩) }

end ConcreteWorlds

section Helpers

/-- The constant fields `mkRow` copies from its arguments. -/
theorem mkRow_fields (sd ts rid loc sku colorway size classValue : String)
    (ss : ℚ) (vi : VariantInfo) (q : ℚ) :
    (mkRow sd ts rid loc sku colorway size classValue ss vi q).snapshotDate = sd ∧
    (mkRow sd ts rid loc sku colorway size classValue ss vi q).snapshotTs = ts ∧
    (mkRow sd ts rid loc sku colorway size classValue ss vi q).runId = rid ∧
    (mkRow sd ts rid loc sku colorway size classValue ss vi q).locationId = loc ∧
    (mkRow sd ts rid loc sku colorway size classValue ss vi q).sku = sku ∧
    (mkRow sd ts rid loc sku colorway size classValue ss vi q).colorway = colorway ∧
    (mkRow sd ts rid loc sku colorway size classValue ss vi q).size = size ∧
    (mkRow sd ts rid loc sku colorway size classValue ss vi q).classValue = classValue ∧
    (mkRow sd ts rid loc sku colorway size classValue ss vi q).safetyStock = ss ∧
    (mkRow sd ts rid loc sku colorway size classValue ss vi q).variantId = vi.variantId ∧
    (mkRow sd ts rid loc sku colorway size classValue ss vi q).inventoryItemId =
      vi.inventoryItemId ∧
    (mkRow sd ts rid loc sku colorway size classValue ss vi q).availableQty = q :=
  ⟨rfl, rfl, rfl, rfl, rfl, rfl, rfl, rfl, rfl, rfl, rfl, rfl⟩

/-- Every row assembled by `mkRow` satisfies the scoring field equations. -/
theorem mkRow_wellFormed (sd ts rid loc sku colorway size classValue : String)
    (ss : ℚ) (vi : VariantInfo) (q : ℚ) :
    RowWellFormed (mkRow sd ts rid loc sku colorway size classValue ss vi q) :=
  ⟨rfl, rfl, rfl, rfl, rfl, rfl, rfl⟩

/-- Inversion of the loop body when it emits a row. -/
theorem processRefRow_emitted {ctx : RunCtx} {r : List String} {row : SnapshotRow}
    (h : processRefRow ctx r = .ok (.emitted row)) :
    skuOfRow ctx.headerMap r ≠ "" ∧
    ∃ vi resp,
      ctx.variantSvc (skuOfRow ctx.headerMap r) = .ok (some vi) ∧
      ctx.invSvc vi.inventoryItemId = .ok resp ∧
      row = mkRow ctx.snapshotDate ctx.snapshotTs ctx.runId ctx.locationId
        (skuOfRow ctx.headerMap r) (colorwayOfRow ctx.headerMap r)
        (sizeOfRow ctx.headerMap r) (classOfRow ctx.headerMap r)
        (safetyOfRow ctx.headerMap r) vi (fetchAvailableInventoryREST ctx.locationId resp) := by
  unfold processRefRow at h
  split at h
  · simp at h
  · rename_i hsku
    split at h
    · simp at h
    · simp at h
    · rename_i vi hvi
      split at h
      · simp at h
      · rename_i resp hresp
        simp only [Except.ok.injEq] at h
        cases h
        exact ⟨hsku, vi, resp, hvi, hresp, rfl⟩

/-- The loop body skips a reference row silently exactly when its trimmed
SKU cell is empty; in particular no other cell (safety stock included) can
cause a row to be dropped without a recorded error. -/
theorem processRefRow_skipped_iff (ctx : RunCtx) (r : List String) :
    processRefRow ctx r = .ok .skippedEmptySku ↔ skuOfRow ctx.headerMap r = "" := by
  unfold processRefRow
  split
  · rename_i hsku
    simp [hsku]
  · rename_i hsku
    constructor
    · intro h
      split at h <;> simp_all
      split at h <;> simp_all
    · intro h
      exact absurd h hsku

/-- Inversion of the loop body when it records a lookup error. -/
theorem processRefRow_lookupFailed {ctx : RunCtx} {r : List String} {e : RunError}
    (h : processRefRow ctx r = .ok (.lookupFailed e)) :
    skuOfRow ctx.headerMap r ≠ "" ∧
    ctx.variantSvc (skuOfRow ctx.headerMap r) = .ok none := by
  unfold processRefRow at h
  split at h
  · simp at h
  · rename_i hsku
    split at h
    · simp at h
    · exact ⟨hsku, by assumption⟩
    · split at h <;> simp at h

/-- Every row in a successful loop result is the emitted outcome of some
reference row. -/
theorem buildSnapshotRows_mem {ctx : RunCtx} :
    ∀ {rows : List (List String)} {rs : List SnapshotRow} {es : List RunError},
      buildSnapshotRows ctx rows = .ok (rs, es) →
      ∀ {row : SnapshotRow}, row ∈ rs →
      ∃ r ∈ rows, processRefRow ctx r = .ok (.emitted row)
  | [], rs, es, h, row, hm => by
    simp only [buildSnapshotRows, Except.ok.injEq, Prod.mk.injEq] at h
    rw [← h.1] at hm
    simp at hm
  | r :: rest, rs, es, h, row, hm => by
    rw [buildSnapshotRows] at h
    split at h
    · simp at h
    · rename_i hp
      have ⟨r2, hr2, hpr⟩ := buildSnapshotRows_mem h hm
      exact ⟨r2, List.mem_cons_of_mem _ hr2, hpr⟩
    · rename_i e hp
      split at h
      · simp at h
      · rename_i rs2 es2 hrest
        simp only [Except.ok.injEq, Prod.mk.injEq] at h
        rw [← h.1] at hm
        have ⟨r2, hr2, hpr⟩ := buildSnapshotRows_mem hrest hm
        exact ⟨r2, List.mem_cons_of_mem _ hr2, hpr⟩
    · rename_i row2 hp
      split at h
      · simp at h
      · rename_i rs2 es2 hrest
        simp only [Except.ok.injEq, Prod.mk.injEq] at h
        rw [← h.1] at hm
        rcases List.mem_cons.mp hm with heq | hm2
        · exact ⟨r, List.mem_cons_self _ _, heq ▸ hp⟩
        · have ⟨r2, hr2, hpr⟩ := buildSnapshotRows_mem hrest hm2
          exact ⟨r2, List.mem_cons_of_mem _ hr2, hpr⟩

/-- A successful loop result counts: one emitted row per reference row with
non-empty SKU and successful lookup, one recorded error per reference row
with non-empty SKU and failed lookup. -/
theorem buildSnapshotRows_count {ctx : RunCtx} :
    ∀ {rows : List (List String)} {rs : List SnapshotRow} {es : List RunError},
      buildSnapshotRows ctx rows = .ok (rs, es) →
      rs.length = rows.countP (rowEmits ctx) ∧ es.length = rows.countP (rowFails ctx)
  | [], rs, es, h => by
    simp only [buildSnapshotRows, Except.ok.injEq, Prod.mk.injEq] at h
    simp [← h.1, ← h.2]
  | r :: rest, rs, es, h => by
    rw [buildSnapshotRows] at h
    rw [List.countP_cons, List.countP_cons]
    split at h
    · simp at h
    · rename_i hp
      have hsku := (processRefRow_skipped_iff ctx r).mp hp
      have he : rowEmits ctx r = false := by simp [rowEmits, hsku]
      have hf : rowFails ctx r = false := by simp [rowFails, hsku]
      rw [he, hf]
      simpa using buildSnapshotRows_count h
    · rename_i e hp
      split at h
      · simp at h
      · rename_i rs2 es2 hrest
        have ⟨hsku, hnone⟩ := processRefRow_lookupFailed hp
        have he : rowEmits ctx r = false := by simp [rowEmits, hsku, hnone]
        have hf : rowFails ctx r = true := by simp [rowFails, hsku, hnone]
        simp only [Except.ok.injEq, Prod.mk.injEq] at h
        rw [he, hf, ← h.1, ← h.2]
        have ih := buildSnapshotRows_count hrest
        simp [ih.1, ih.2]
    · rename_i row hp
      split at h
      · simp at h
      · rename_i rs2 es2 hrest
        have ⟨hsku, vi, resp, hvi, _, _⟩ := processRefRow_emitted hp
        have he : rowEmits ctx r = true := by simp [rowEmits, hsku, hvi]
        have hf : rowFails ctx r = false := by simp [rowFails, hsku, hvi]
        simp only [Except.ok.injEq, Prod.mk.injEq] at h
        rw [he, hf, ← h.1, ← h.2]
        have ih := buildSnapshotRows_count hrest
        simp [ih.1, ih.2]

/-- When every reference row is skipped or fails its lookup, the loop emits
no rows at all (and therefore `POST` makes no append). -/
theorem buildSnapshotRows_all_skipped {ctx : RunCtx} :
    ∀ {rows : List (List String)},
      (∀ r ∈ rows, skuOfRow ctx.headerMap r = "" ∨
        ctx.variantSvc (skuOfRow ctx.headerMap r) = .ok none) →
      ∃ es, buildSnapshotRows ctx rows = .ok ([], es)
  | [], _ => ⟨[], rfl⟩
  | r :: rest, hall => by
    have ⟨es, hrest⟩ := buildSnapshotRows_all_skipped
      (fun r2 hr2 => hall r2 (List.mem_cons_of_mem _ hr2))
    rcases hall r (List.mem_cons_self _ _) with hsku | hnone
    · exact ⟨es, by rw [buildSnapshotRows, (processRefRow_skipped_iff ctx r).mpr hsku, hrest]⟩
    · rcases hcase : processRefRow ctx r with _ | out
      · exact absurd hcase (by unfold processRefRow; split <;> simp_all)
      · cases out with
        | skippedEmptySku =>
          exact ⟨es, by rw [buildSnapshotRows, hcase, hrest]⟩
        | lookupFailed e =>
          exact ⟨e :: es, by rw [buildSnapshotRows, hcase, hrest]⟩
        | emitted row =>
          have ⟨_, vi, _, hvi, _, _⟩ := processRefRow_emitted hcase
          rw [hnone] at hvi
          simp at hvi

/-- Fixed fields of the rows of a successful loop result: every emitted row
carries the snapshot date, run id and location id of the run, satisfies the
scoring field equations, and records the service interactions of the loop. -/
theorem buildSnapshotRows_rowSpec {ctx : RunCtx} {rows : List (List String)}
    {rs : List SnapshotRow} {es : List RunError}
    (h : buildSnapshotRows ctx rows = .ok (rs, es)) {row : SnapshotRow}
    (hm : row ∈ rs) :
    row.snapshotDate = ctx.snapshotDate ∧ row.runId = ctx.runId ∧
    row.locationId = ctx.locationId ∧ RowWellFormed row ∧
    row.sku ≠ "" ∧
    (∃ resp, ctx.invSvc row.inventoryItemId = .ok resp ∧
      row.availableQty = fetchAvailableInventoryREST ctx.locationId resp) ∧
    (∃ r ∈ rows, row.sku = skuOfRow ctx.headerMap r ∧
      row.colorway = colorwayOfRow ctx.headerMap r ∧
      row.size = sizeOfRow ctx.headerMap r ∧
      row.classValue = classOfRow ctx.headerMap r ∧
      row.safetyStock = safetyOfRow ctx.headerMap r) := by
  have ⟨r, hr, hpr⟩ := buildSnapshotRows_mem h hm
  have ⟨hsku, vi, resp, hvi, hresp, hrow⟩ := processRefRow_emitted hpr
  subst hrow
  refine ⟨rfl, rfl, rfl, mkRow_wellFormed _ _ _ _ _ _ _ _ _ _ _, hsku, ⟨resp, hresp, rfl⟩,
    r, hr, rfl, rfl, rfl, rfl, rfl⟩

/-- Exhaustive description of what a `POST` invocation can do: reject the
request, fail with an error response, skip because the date of the day is already
in the table, or complete the loop and (for a non-empty row set) append
exactly once.  In every non-`ok` case the snapshot table is untouched. -/
theorem POST_cases (w : World) :
    POST w = (.unauthorized, w.snapshotTable) ∨
    (∃ m, POST w = (.error m, w.snapshotTable)) ∨
    (POST w = (.skipped w.todayDate, w.snapshotTable) ∧
      w.todayDate ∈ datesOf w.snapshotTable ∧ AuthOk w) ∨
    (∃ loc rs es, AuthOk w ∧ checkEnvs w.env = .ok loc ∧
      w.todayDate ∉ datesOf w.snapshotTable ∧ 2 ≤ w.refSheet.length ∧
      buildSnapshotRows (mkCtx w loc) (w.refSheet.drop 1) = .ok (rs, es) ∧
      POST w = (.ok w.todayDate rs.length es.length (es.take 25),
        if rs.isEmpty then w.snapshotTable else w.snapshotTable ++ rs)) := by
  unfold POST
  split
  · exact Or.inl rfl
  · rename_i secret hsec
    split
    · exact Or.inl rfl
    · split
      · exact Or.inl rfl
      · rename_i hne hcron
        have hauth : AuthOk w := ⟨secret, hsec, hne, not_ne_iff.mp hcron⟩
        unfold POSTbody
        split
        · rename_i m hm
          exact Or.inr (Or.inl ⟨m, rfl⟩)
        · rename_i loc hloc
          split
          · rename_i hg
            exact Or.inr (Or.inr (Or.inl ⟨rfl, hg, hauth⟩))
          · rename_i hg
            split
            · exact Or.inr (Or.inl ⟨_, rfl⟩)
            · rename_i hlen
              split
              · rename_i m hm
                exact Or.inr (Or.inl ⟨m, rfl⟩)
              · rename_i rs2 es2 hpair
                exact Or.inr (Or.inr (Or.inr ⟨loc, rs2, es2, hauth, hloc, hg,
                  Nat.le_of_not_lt hlen, hpair, rfl⟩))

/-- The resulting table is always the old table followed by the appended
batch. -/
theorem POST_table (w : World) : (POST w).2 = w.snapshotTable ++ newRows w := by
  rcases POST_cases w with h | ⟨m, h⟩ | ⟨h, _, _⟩ | ⟨loc, rs, es, _, _, _, _, _, h⟩ <;>
    rw [newRows, h] <;> simp [List.drop_left]
  split <;> simp [List.drop_left]

/-- When the response is not the `ok` status, nothing was appended. -/
theorem newRows_of_not_ok {w : World}
    (h : ∀ d n ec errs, (POST w).1 ≠ .ok d n ec errs) : newRows w = [] := by
  rcases POST_cases w with h2 | ⟨m, h2⟩ | ⟨h2, _, _⟩ | ⟨loc, rs, es, _, _, _, _, _, h2⟩ <;>
    rw [newRows, h2] <;> simp [List.drop_length]
  exact absurd (congrArg Prod.fst h2) (by simpa using h _ _ _ _)

/-- Inversion of an `ok` response: the run passed the guard, ran the loop,
and appended exactly the rows the loop emitted. -/
theorem POST_ok_inversion {w : World} {d : String} {n ec : ℕ} {errs : List RunError}
    (h : (POST w).1 = .ok d n ec errs) :
    ∃ loc rs es, AuthOk w ∧ checkEnvs w.env = .ok loc ∧
      w.todayDate ∉ datesOf w.snapshotTable ∧ 2 ≤ w.refSheet.length ∧
      buildSnapshotRows (mkCtx w loc) (w.refSheet.drop 1) = .ok (rs, es) ∧
      d = w.todayDate ∧ n = rs.length ∧ ec = es.length ∧ errs = es.take 25 ∧
      newRows w = rs := by
  rcases POST_cases w with h2 | ⟨m, h2⟩ | ⟨h2, _, _⟩ | ⟨loc, rs, es, ha, hl, hg, hlen, hb, h2⟩
  · rw [h2] at h; simp at h
  · rw [h2] at h; simp at h
  · rw [h2] at h; simp at h
  · have h1 := congrArg Prod.fst h2
    simp only at h1
    rw [h1] at h
    simp only [ApiResponse.ok.injEq] at h
    refine ⟨loc, rs, es, ha, hl, hg, hlen, hb, h.1.symm, h.2.1.symm, h.2.2.1.symm,
      h.2.2.2.symm, ?_⟩
    rw [newRows, congrArg Prod.snd h2]
    split
    · rename_i hemp
      simp [List.drop_length, List.isEmpty_iff.mp hemp]
    · simp [List.drop_left]

/-- Every appended row comes from the loop applied to some reference data
row, under the context `POST` built. -/
theorem newRows_mem {w : World} {row : SnapshotRow} (hm : row ∈ newRows w) :
    ∃ loc, checkEnvs w.env = .ok loc ∧
      ∃ rs es, buildSnapshotRows (mkCtx w loc) (w.refSheet.drop 1) = .ok (rs, es) ∧
        row ∈ rs := by
  rcases POST_cases w with h2 | ⟨m, h2⟩ | ⟨h2, _, _⟩ | ⟨loc, rs, es, ha, hl, hg, hlen, hb, h2⟩
  · rw [newRows, congrArg Prod.snd h2] at hm; simp [List.drop_length] at hm
  · rw [newRows, congrArg Prod.snd h2] at hm; simp [List.drop_length] at hm
  · rw [newRows, congrArg Prod.snd h2] at hm; simp [List.drop_length] at hm
  · rw [newRows, congrArg Prod.snd h2] at hm
    refine ⟨loc, hl, rs, es, hb, ?_⟩
    revert hm
    split
    · intro hm; simp [List.drop_length] at hm
    · intro hm; rwa [List.drop_left] at hm

/-- The guard: an authorized, fully configured invocation finding the date
of the day already present returns `skipped` and leaves the table unchanged. -/
theorem POST_skips {w : World} (ha : AuthOk w) (he : ∃ loc, checkEnvs w.env = .ok loc)
    (hg : w.todayDate ∈ datesOf w.snapshotTable) :
    POST w = (.skipped w.todayDate, w.snapshotTable) := by
  obtain ⟨s, hs1, hs2, hs3⟩ := ha
  obtain ⟨loc, hloc⟩ := he
  unfold POST
  split
  · rename_i hnone
    rw [hs1] at hnone
    cases hnone
  · rename_i secret hsec
    rw [hs1] at hsec
    cases hsec
    rw [if_neg hs2, if_neg (not_ne_iff.mpr hs3)]
    unfold POSTbody
    split
    · rename_i m hm
      rw [hloc] at hm
      cases hm
    · rw [if_pos hg]

/-- The head of a non-empty list (with default) belongs to the list. -/
theorem headD_mem {α : Type _} (d : α) : ∀ {l : List α}, l ≠ [] → l.headD d ∈ l
  | [], h => absurd rfl h
  | _ :: _, _ => by simp

end Helpers

section Claims

/-- C6: for every size string the derived size class is `"A"` exactly when
the trimmed, upper-cased token belongs to the fixed core set
`{YTH-MD, YTH-LG, YTH-XL, SR-SM, SR-MD, SR-LG}`, and `"B"` otherwise; in
particular `"SR-MD"` derives `"A"` and `"XL"` derives `"B"`. -/
theorem size_class_derivation (s : String) :
    (deriveSizeClassFromSize s = "A" ↔ jsToUpper (jsTrim s) ∈ SIZE_CLASS_A_SET) ∧
    (deriveSizeClassFromSize s = "A" ∨ deriveSizeClassFromSize s = "B") ∧
    SIZE_CLASS_A_SET = ["YTH-MD", "YTH-LG", "YTH-XL", "SR-SM", "SR-MD", "SR-LG"] ∧
    deriveSizeClassFromSize "SR-MD" = "A" ∧
    deriveSizeClassFromSize "XL" = "B" := by
  refine ⟨?_, ?_, rfl, by decide, by decide⟩
  · unfold deriveSizeClassFromSize
    split <;> rename_i h <;> simp [h]
  · unfold deriveSizeClassFromSize
    split <;> simp

/-- Witness for C6 at concrete sizes. -/
theorem size_class_derivation_witness :
    deriveSizeClassFromSize "SR-MD" = "A" ∧
    (deriveSizeClassFromSize " sr-md " = "A" ↔
      jsToUpper (jsTrim " sr-md ") ∈ SIZE_CLASS_A_SET) :=
  ⟨(size_class_derivation "SR-MD").2.2.2.1, (size_class_derivation " sr-md ").1⟩

/-- C5: for every appended row, `productClassWeight` is the lookup of its
(trim- and case-normalized) class cell in the fixed table
`{A:4, B:3, C:2, LE:1}` (unknown classes mapping to 0 through `getD`), its
`sizeClassWeight` is the lookup of the size class in `{A:3, B:1}`, and
`totalWeight` is their product; `A`/`A` yields 12, `LE`/`B` yields 1, and an
unknown product class yields 0. -/
theorem weight_table_correct (w : World) (r : SnapshotRow) (h : r ∈ newRows w) :
    PRODUCT_CLASS_WEIGHT "A" = some 4 ∧ PRODUCT_CLASS_WEIGHT "B" = some 3 ∧
    PRODUCT_CLASS_WEIGHT "C" = some 2 ∧ PRODUCT_CLASS_WEIGHT "LE" = some 1 ∧
    SIZE_CLASS_WEIGHT "A" = some 3 ∧ SIZE_CLASS_WEIGHT "B" = some 1 ∧
    r.productClassWeight = (PRODUCT_CLASS_WEIGHT r.classValue).getD 0 ∧
    r.sizeClassWeight = (SIZE_CLASS_WEIGHT r.sizeClass).getD 0 ∧
    r.totalWeight = r.productClassWeight * r.sizeClassWeight ∧
    (∃ refRow ∈ w.refSheet.drop 1,
      r.classValue = classOfRow (buildHeaderIndexMap (w.refSheet.headD [])) refRow) ∧
    (r.classValue = "A" → r.sizeClass = "A" → r.totalWeight = 12) ∧
    (r.classValue = "LE" → r.sizeClass = "B" → r.totalWeight = 1) ∧
    (PRODUCT_CLASS_WEIGHT r.classValue = none → r.totalWeight = 0) := by
  obtain ⟨loc, hloc, rs, es, hb, hrs⟩ := newRows_mem h
  obtain ⟨_, _, _, hwf, _, _, refRow, hrr, _, _, _, hclass, _⟩ :=
    buildSnapshotRows_rowSpec hb hrs
  obtain ⟨_, h2, h3, h4, _, _, _⟩ := hwf
  refine ⟨rfl, rfl, rfl, rfl, rfl, rfl, h2, h3, h4, ⟨refRow, hrr, hclass⟩, ?_, ?_, ?_⟩
  · intro ha hsa; rw [h4, h2, h3, ha, hsa]; rfl
  · intro ha hsa; rw [h4, h2, h3, ha, hsa]; rfl
  · intro hnone; rw [h4, h2, hnone]; simp

/-- Witness for C5: the `A`/`SR-MD` row of the `w0` run weighs 4 × 3 = 12,
and the `LE`/`XL` row of the `w4` run weighs 1 × 1 = 1. -/
theorem weight_table_correct_witness :
    rowABC.totalWeight = 12 ∧
    rowABC.productClassWeight = (PRODUCT_CLASS_WEIGHT rowABC.classValue).getD 0 := by
  obtain ⟨_, _, _, _, _, _, h7, _, _, _, h11, _, _⟩ :=
    weight_table_correct w0 rowABC (by decide)
  exact ⟨h11 rfl rfl, h7⟩

/-- C4 counterexample: the biconditional claimed, namely
`flag = 1 ↔ (s > 0 ∧ q ≥ s) ∨ (s = 0 ∧ q > 0)` fails on the code.  In the
`w4` run the reference sheet carries the safety-stock cell `"-5"`, which
`Number(...)` passes through as `-5`; the emitted `ABC` row then has
`availableQty = 3` and in-stock flag `1` (the else-branch of the code tests
`availableQty > 0` whenever `safetyStock > 0` fails), while the claimed
formula is false at `s = -5`, `q = 3`. -/
theorem v1_in_stock_spec_cex :
    (newRows w4).map (fun r => (r.safetyStock, r.availableQty, r.inStockFlag)) =
      [(-5, 3, 1), (5/2, 3, 1)] ∧
    ¬ ((((-5 : ℚ) > 0) ∧ ((3 : ℚ) ≥ -5)) ∨ (((-5 : ℚ) = 0) ∧ ((3 : ℚ) > 0))) := by
  constructor
  · decide
  · decide

/-- C4 amended: for every appended row with safety stock `s` and available
quantity `q`, the in-stock flag is `1` iff `(s > 0 ∧ q ≥ s) ∨ (s ≤ 0 ∧ q > 0)`
(the conditional in the code tests `q > 0` in the whole non-positive `s` branch,
not only at `s = 0`), and the weighted contribution is `totalWeight` when
the flag is set and `0` otherwise. -/
theorem v1_in_stock_safety_aware (w : World) (r : SnapshotRow) (h : r ∈ newRows w) :
    (r.inStockFlag = 1 ↔
      ((r.safetyStock > 0 ∧ r.availableQty ≥ r.safetyStock) ∨
       (r.safetyStock ≤ 0 ∧ r.availableQty > 0))) ∧
    (r.inStockFlag = 0 ∨ r.inStockFlag = 1) ∧
    r.weightedInStock = (if r.inStockFlag = 1 then r.totalWeight else 0) := by
  obtain ⟨loc, hloc, rs, es, hb, hrs⟩ := newRows_mem h
  obtain ⟨_, _, _, hwf, _, _, _⟩ := buildSnapshotRows_rowSpec hb hrs
  obtain ⟨_, _, _, _, _, h6, h7⟩ := hwf
  refine ⟨?_, ?_, ?_⟩
  · rw [h6]
    split
    · rename_i hpos
      split
      · rename_i hge
        simp [hpos, hge]
      · rename_i hge
        simp [hge, not_le.mpr hpos]
    · rename_i hpos
      split
      · rename_i hq
        simp [hq, not_lt.mp hpos]
      · rename_i hq
        simp [hpos, hq]
  · rw [h6]; split <;> split <;> simp
  · rw [h7, h6]
    split <;> split <;> simp

/-- Witness for the amended C4 at the first row of the `w4` run. -/
theorem v1_in_stock_safety_aware_witness :
    ((newRows w4).headD rowABC).inStockFlag = 0 ∨
    ((newRows w4).headD rowABC).inStockFlag = 1 := by
  have hne : newRows w4 ≠ [] := by decide
  exact (v1_in_stock_safety_aware w4 ((newRows w4).headD rowABC)
    (headD_mem rowABC hne)).2.1

/-- C3 counterexample: an emitted row does not carry a second, any-positive
in-stock variant.  In the `w0` run (safetyStock 10, available 5) the single
appended row is `rowABC`; its only in-stock field is the safety-aware flag,
which is `0`, and — although `availableQty = 5 > 0`, so a v2 any-positive
flag would have to read true — none of the 19 cells written for this row
holds `1` or `"true"`: no field of the row records such a variant. -/
theorem dual_scoring_variant_cex :
    newRows w0 = [rowABC] ∧
    rowABC.safetyStock = 10 ∧ rowABC.availableQty = 5 ∧
    rowABC.inStockFlag = 0 ∧ rowABC.weightedInStock = 0 ∧
    ((5 : ℚ) > 0) ∧
    (∀ c ∈ rowCells rowABC, c ≠ .num 1 ∧ c ≠ .str "true") := by
  refine ⟨by decide, rfl, rfl, rfl, rfl, by norm_num, by decide⟩

/-- C3 amended: every appended row carries exactly one in-stock scoring
variant — the 19 written cells are the fields listed below, in which the
safety-aware binary flag (column R) and its weighted contribution (column S)
are the only scoring fields; there is no any-positive (v2) field.  For
safetyStock 10 and available 5 the flag reads 0. -/
theorem single_scoring_variant (w : World) (r : SnapshotRow) (h : r ∈ newRows w) :
    rowCells r =
      [ .str r.snapshotDate, .str r.snapshotTs, .str r.runId, .str r.sku,
        .str r.colorway, .str r.size, .str r.classValue, .str r.sizeClass,
        .num r.safetyStock, .str r.variantId, .str r.inventoryItemId,
        .str r.locationId, .num r.availableQty, .num r.balanceVsSafety,
        .num (r.productClassWeight : ℚ), .num (r.sizeClassWeight : ℚ),
        .num (r.totalWeight : ℚ), .num (r.inStockFlag : ℚ),
        .num (r.weightedInStock : ℚ) ] ∧
    r.inStockFlag = (if r.safetyStock > 0 then (if r.availableQty ≥ r.safetyStock then 1 else 0)
      else (if r.availableQty > 0 then 1 else 0)) ∧
    r.weightedInStock = r.inStockFlag * r.totalWeight ∧
    (r.safetyStock = 10 → r.availableQty = 5 → r.inStockFlag = 0) := by
  obtain ⟨loc, hloc, rs, es, hb, hrs⟩ := newRows_mem h
  obtain ⟨_, _, _, hwf, _, _, _⟩ := buildSnapshotRows_rowSpec hb hrs
  obtain ⟨_, _, _, _, _, h6, h7⟩ := hwf
  refine ⟨rfl, h6, h7, ?_⟩
  intro hs hq
  rw [h6, hs, hq]
  norm_num

/-- Witness for the amended C3 at the `w0` run. -/
theorem single_scoring_variant_witness : rowABC.inStockFlag = 0 := by
  obtain ⟨_, _, _, h4⟩ := single_scoring_variant w0 rowABC (by decide)
  exact h4 rfl rfl

/-- C7: a non-ok inventory response, or one with no level for the requested
location, resolves to available quantity 0; consequently the emitted row has
`availableQty = 0` and, for any positive safety stock, an in-stock flag and
weighted contribution of 0. -/
theorem conservative_defaulting :
    (∀ (locationId : String) (resp : InvResponse),
      (resp.ok = false ∨ ∀ l ∈ resp.levels, l.locationId ≠ locationId) →
      fetchAvailableInventoryREST locationId resp = 0) ∧
    (∀ (w : World) (r : SnapshotRow), r ∈ newRows w →
      (∀ resp, w.invSvc r.inventoryItemId = .ok resp →
        resp.ok = false ∨ ∀ l ∈ resp.levels, l.locationId ≠ r.locationId) →
      r.availableQty = 0 ∧
      (0 < r.safetyStock → r.inStockFlag = 0 ∧ r.weightedInStock = 0)) := by
  have hzero : ∀ (locationId : String) (resp : InvResponse),
      (resp.ok = false ∨ ∀ l ∈ resp.levels, l.locationId ≠ locationId) →
      fetchAvailableInventoryREST locationId resp = 0 := by
    intro locId resp hcond
    unfold fetchAvailableInventoryREST
    rcases hcond with hok | hnone
    · rw [hok]
      rfl
    · split
      · rfl
      · have hfind : resp.levels.find? (fun l => l.locationId == locId) = none :=
          List.find?_eq_none.mpr (fun l hl => by simp [hnone l hl])
        rw [hfind]
  refine ⟨hzero, ?_⟩
  intro w r h hresp
  obtain ⟨loc, hloc, rs, es, hb, hrs⟩ := newRows_mem h
  obtain ⟨_, _, hlocid, hwf, _, ⟨resp, hr1, hr2⟩, _⟩ := buildSnapshotRows_rowSpec hb hrs
  obtain ⟨_, _, _, _, _, h6, h7⟩ := hwf
  have hcond := hresp resp hr1
  rw [hlocid] at hcond
  have hq : r.availableQty = 0 := by rw [hr2]; exact hzero _ _ hcond
  refine ⟨hq, fun hs => ?_⟩
  have hflag : r.inStockFlag = 0 := by
    rw [h6, hq, if_pos hs, if_neg (not_le.mpr hs)]
  exact ⟨hflag, by rw [h7, hflag]; simp⟩

/-- Witness for C7: a non-ok response resolves to 0, and in the `w7` run
(inventory lookup failing, safety stock 10) the emitted row has quantity 0. -/
theorem conservative_defaulting_witness :
    fetchAvailableInventoryREST "LOC1" ⟨false, [⟨"LOC1", some 5⟩]⟩ = 0 ∧
    ((newRows w7).headD rowABC).availableQty = 0 := by
  refine ⟨conservative_defaulting.1 "LOC1" ⟨false, [⟨"LOC1", some 5⟩]⟩ (Or.inl rfl), ?_⟩
  have hne : newRows w7 ≠ [] := by decide
  exact (conservative_defaulting.2 w7 ((newRows w7).headD rowABC) (headD_mem rowABC hne)
    (fun resp hresp => Or.inl (by cases hresp; rfl))).1

/-- C9 counterexample: the safety-stock value carried into an emitted row is
not always a non-negative integer.  In the `w4` run the cells `"-5"` and
`"2.5"` coerce to `-5` (negative) and `5/2` (not an integer), and both rows
are still emitted. -/
theorem safety_stock_nonneg_cex :
    (newRows w4).map (fun r => r.safetyStock) = [-5, 5/2] ∧
    ((-5 : ℚ) < 0) ∧ ((5/2 : ℚ).den ≠ 1) := by
  refine ⟨by decide, by norm_num, by decide⟩

/-- C9 amended: the safety-stock cell is `Number`-coerced, never rejected: a
missing, empty or non-numeric cell yields 0 and the row is still processed;
the value of a numeric cell is carried into the row unchanged — including
negative or fractional values, so no non-negativity or integrality holds.
A row is skipped without an error only for an empty SKU cell, never because
of its safety-stock cell. -/
theorem safety_stock_coercion (w : World) (r : SnapshotRow) (h : r ∈ newRows w) :
    (∃ refRow ∈ w.refSheet.drop 1,
      r.safetyStock = safetyOfRow (buildHeaderIndexMap (w.refSheet.headD [])) refRow) ∧
    parseSafetyStock none = 0 ∧
    parseSafetyStock (some "") = 0 ∧
    (∀ s, jsStringToNumber s = none → parseSafetyStock (some s) = 0) ∧
    (∀ s q, jsStringToNumber s = some q → parseSafetyStock (some s) = q) ∧
    (∀ (ctx : RunCtx) (refRow : List String),
      processRefRow ctx refRow = .ok .skippedEmptySku ↔
        skuOfRow ctx.headerMap refRow = "") := by
  obtain ⟨loc, hloc, rs, es, hb, hrs⟩ := newRows_mem h
  obtain ⟨_, _, _, _, _, _, refRow, hrr, _, _, _, _, hsafety⟩ :=
    buildSnapshotRows_rowSpec hb hrs
  refine ⟨⟨refRow, hrr, hsafety⟩, rfl, rfl, ?_, ?_, processRefRow_skipped_iff⟩
  · intro s hs
    by_cases hse : s = ""
    · simp [parseSafetyStock, hse]
    · simp [parseSafetyStock, hse, hs]
  · intro s q hq
    by_cases hse : s = ""
    · subst hse
      have h0 : jsStringToNumber "" = some 0 := rfl
      rw [h0] at hq
      rw [← Option.some.inj hq]
      rfl
    · simp [parseSafetyStock, hse, hq]

/-- Witness for the amended C9 at the first row of the `w4` run. -/
theorem safety_stock_coercion_witness :
    parseSafetyStock none = 0 ∧ parseSafetyStock (some "x7") = 0 := by
  have hne : newRows w4 ≠ [] := by decide
  obtain ⟨_, h2, _, h4, _, _⟩ := safety_stock_coercion w4 ((newRows w4).headD rowABC)
    (headD_mem rowABC hne)
  exact ⟨h2, h4 "x7" (by decide)⟩

/-- C1: the daily snapshot is idempotent.  (1) An authorized, configured run
whose guard read finds the date of the day among the stored dates returns
`skipped` and appends nothing.  (2) Two sequential same-day runs, the first
returning `ok` with at least one row written, make the second return
`skipped` with the table unchanged (zero rows written).  (3) Every run
preserves the invariant that all rows sharing a `snapshotDate` belong to a
single run. -/
theorem snapshot_idempotency (w w2 : World) :
    (AuthOk w → (∃ loc, checkEnvs w.env = .ok loc) →
      w.todayDate ∈ datesOf w.snapshotTable →
      POST w = (.skipped w.todayDate, w.snapshotTable)) ∧
    (∀ (d : String) (n ec : ℕ) (errs : List RunError),
      (POST w).1 = .ok d n ec errs → 0 < n →
      w2.snapshotTable = (POST w).2 → w2.todayDate = w.todayDate →
      AuthOk w2 → (∃ loc, checkEnvs w2.env = .ok loc) →
      POST w2 = (.skipped w2.todayDate, w2.snapshotTable)) ∧
    (DatesUnique w.snapshotTable → DatesUnique (POST w).2) := by
  refine ⟨fun ha he hg => POST_skips ha he hg, ?_, ?_⟩
  · intro d n ec errs hok hn ht hd ha2 he2
    obtain ⟨loc, rs, es, ha, hloc, hg, hlen, hb, hdd, hn2, _, _, hnew⟩ := POST_ok_inversion hok
    have hrsne : rs ≠ [] := by
      intro hrs0
      rw [hrs0] at hn2
      rw [hn2] at hn
      simp at hn
    have htable : (POST w).2 = w.snapshotTable ++ rs := by
      rw [POST_table w, hnew]
    have hmem : w.todayDate ∈ datesOf (POST w).2 := by
      obtain ⟨r0, hr0⟩ := List.exists_mem_of_ne_nil rs hrsne
      have hdate : r0.snapshotDate = w.todayDate := (buildSnapshotRows_rowSpec hb hr0).1
      rw [htable]
      unfold datesOf
      rw [List.map_append]
      exact List.mem_append_right _ (List.mem_map.mpr ⟨r0, hr0, hdate⟩)
    have hmem2 : w2.todayDate ∈ datesOf w2.snapshotTable := by
      rw [hd, ht]
      exact hmem
    exact POST_skips ha2 he2 hmem2
  · intro hu
    rcases POST_cases w with h2 | ⟨m, h2⟩ | ⟨h2, _, _⟩ | ⟨loc, rs, es, ha, hl, hg, hlen, hb, h2⟩
    · rw [congrArg Prod.snd h2]; exact hu
    · rw [congrArg Prod.snd h2]; exact hu
    · rw [congrArg Prod.snd h2]; exact hu
    · rw [congrArg Prod.snd h2]
      split
      · exact hu
      · intro r1 hr1 r2 hr2 hdeq
        rcases List.mem_append.mp hr1 with h1o | h1n <;>
          rcases List.mem_append.mp hr2 with h2o | h2n
        · exact hu r1 h1o r2 h2o hdeq
        · exfalso
          apply hg
          have hd2 : r2.snapshotDate = w.todayDate := (buildSnapshotRows_rowSpec hb h2n).1
          rw [← hd2, ← hdeq]
          exact List.mem_map.mpr ⟨r1, h1o, rfl⟩
        · exfalso
          apply hg
          have hd1 : r1.snapshotDate = w.todayDate := (buildSnapshotRows_rowSpec hb h1n).1
          rw [← hd1, hdeq]
          exact List.mem_map.mpr ⟨r2, h2o, rfl⟩
        · have hru1 : r1.runId = (mkCtx w loc).runId := (buildSnapshotRows_rowSpec hb h1n).2.1
          have hru2 : r2.runId = (mkCtx w loc).runId := (buildSnapshotRows_rowSpec hb h2n).2.1
          rw [hru1, hru2]

/-- Witness for C1: after the `w0` run wrote one row, the same-day re-run
`w0second` is skipped with its table unchanged. -/
theorem snapshot_idempotency_witness :
    POST w0second = (.skipped "2025-01-02", w0second.snapshotTable) :=
  (snapshot_idempotency w0 w0second).2.1 "2025-01-02" 1 0 [] (by decide) (by decide)
    rfl rfl ⟨"s", rfl, by decide, rfl⟩ ⟨"LOC1", by decide⟩

/-- C2 counterexample: the run is not catalog-complete.  In the `w0` run the
commerce platform resolves a variant for every SKU — in particular both
`"ABC"` (tracked) and `"XYZ"` (a catalog variant with a non-empty SKU and no
reference-table row) — yet the successful run appends exactly one row, and
no row with SKU `"XYZ"` is ever emitted: the loop iterates over the
reference sheet, not the catalog, so untracked variants are dropped. -/
theorem catalog_completeness_cex :
    w0.variantSvc "XYZ" = .ok (some ⟨"77", "99"⟩) ∧
    (POST w0).1 = .ok "2025-01-02" 1 0 [] ∧
    (POST w0).2.map (fun r => r.sku) = ["ABC"] := by
  refine ⟨rfl, by decide, by decide⟩

/-- C2 amended: a successful run emits one row per reference-sheet data row
whose (header-resolved, trimmed) SKU is non-empty and whose variant lookup
succeeds; rows with empty SKUs are skipped and failed lookups are counted as
errors; the SKU of every appended row comes from the reference sheet, so catalog
variants absent from the reference sheet are never emitted. -/
theorem reference_driven_completeness (w : World) (d : String) (n ec : ℕ)
    (errs : List RunError) (h : (POST w).1 = .ok d n ec errs) :
    ∃ loc, checkEnvs w.env = .ok loc ∧
      n = (w.refSheet.drop 1).countP (rowEmits (mkCtx w loc)) ∧
      (newRows w).length = n ∧
      ec = (w.refSheet.drop 1).countP (rowFails (mkCtx w loc)) ∧
      (∀ r ∈ newRows w, r.sku ≠ "" ∧ ∃ refRow ∈ w.refSheet.drop 1,
        r.sku = skuOfRow (mkCtx w loc).headerMap refRow) := by
  obtain ⟨loc, rs, es, ha, hloc, hg, hlen, hb, hdd, hn, hec, herrs, hnew⟩ :=
    POST_ok_inversion h
  have hcount := buildSnapshotRows_count hb
  refine ⟨loc, hloc, ?_, ?_, ?_, ?_⟩
  · rw [hn, hcount.1]
  · rw [hnew, hn]
  · rw [hec, hcount.2]
  · intro r hr
    rw [hnew] at hr
    obtain ⟨_, _, _, _, hsku, _, refRow, hrr, hskue, _⟩ := buildSnapshotRows_rowSpec hb hr
    exact ⟨hsku, refRow, hrr, hskue⟩

/-- Witness for the amended C2: the `w0` run appended exactly one
row. -/
theorem reference_driven_completeness_witness : (newRows w0).length = 1 := by
  obtain ⟨loc, _, _, h3, _, _⟩ :=
    reference_driven_completeness w0 "2025-01-02" 1 0 [] (by decide)
  exact h3

/-- C8: persistence is all-or-nothing.  The resulting table is always the
prior table followed by the (single) appended batch, and a run ending in an
error response, an authorization rejection, or a skip appends nothing. -/
theorem all_or_nothing_persistence (w : World) :
    (POST w).2 = w.snapshotTable ++ newRows w ∧
    (∀ m, (POST w).1 = .error m → newRows w = []) ∧
    ((POST w).1 = .unauthorized → newRows w = []) ∧
    (∀ d2, (POST w).1 = .skipped d2 → newRows w = []) := by
  refine ⟨POST_table w, ?_, ?_, ?_⟩
  · intro m hm
    apply newRows_of_not_ok
    intro d n ec errs hok
    exact ApiResponse.noConfusion (hm.symm.trans hok)
  · intro hm
    apply newRows_of_not_ok
    intro d n ec errs hok
    exact ApiResponse.noConfusion (hm.symm.trans hok)
  · intro d2 hm
    apply newRows_of_not_ok
    intro d n ec errs hok
    exact ApiResponse.noConfusion (hm.symm.trans hok)

/-- Witness for C8: the run with an unset `GOOGLE_SHEET_ID` fails before the
append and writes zero rows. -/
theorem all_or_nothing_persistence_witness :
    (POST wBadEnv).2 = wBadEnv.snapshotTable ++ newRows wBadEnv ∧
    newRows wBadEnv = [] :=
  ⟨(all_or_nothing_persistence wBadEnv).1,
   (all_or_nothing_persistence wBadEnv).2.1 "Missing env var: GOOGLE_SHEET_ID" (by decide)⟩

/-- C10: a run in which every reference data row is skipped (empty SKU) or
fails its variant lookup completes with status `ok` and zero rows inserted,
performs no append (the table is unchanged), and does not consume the
calendar day: the date of the day is still absent from the table, so a subsequent
same-day run is not skipped by the guard. -/
theorem zero_row_ok_run (w : World) (loc : String)
    (ha : AuthOk w) (he : checkEnvs w.env = .ok loc)
    (hg : w.todayDate ∉ datesOf w.snapshotTable)
    (hlen : 2 ≤ w.refSheet.length)
    (hrows : ∀ r ∈ w.refSheet.drop 1,
      skuOfRow (mkCtx w loc).headerMap r = "" ∨
      w.variantSvc (skuOfRow (mkCtx w loc).headerMap r) = .ok none) :
    (∃ ec errs, POST w = (.ok w.todayDate 0 ec errs, w.snapshotTable)) ∧
    w.todayDate ∉ datesOf (POST w).2 ∧
    (∀ w2 : World, w2.snapshotTable = (POST w).2 → w2.todayDate = w.todayDate →
      ∀ d, (POST w2).1 ≠ .skipped d) := by
  obtain ⟨es, hb⟩ := buildSnapshotRows_all_skipped hrows
  obtain ⟨s, hs1, hs2, hs3⟩ := ha
  have hpost : POST w = (.ok w.todayDate 0 es.length (es.take 25), w.snapshotTable) := by
    unfold POST
    split
    · rename_i hnone
      rw [hs1] at hnone
      cases hnone
    · rename_i secret hsec
      rw [hs1] at hsec
      cases hsec
      rw [if_neg hs2, if_neg (not_ne_iff.mpr hs3)]
      unfold POSTbody
      split
      · rename_i m hm
        rw [he] at hm
        cases hm
      · rename_i loc2 hloc2
        rw [he] at hloc2
        cases hloc2
        rw [if_neg hg, if_neg (not_lt.mpr hlen), hb]
        rfl
  refine ⟨⟨es.length, es.take 25, hpost⟩, ?_, ?_⟩
  · rw [congrArg Prod.snd hpost]
    exact hg
  · intro w2 ht hd d hskip
    rcases POST_cases w2 with h2 | ⟨m, h2⟩ | ⟨h2, hmem, _⟩ | ⟨loc2, rs2, es2, _, _, _, _, _, h2⟩
    · rw [congrArg Prod.fst h2] at hskip
      exact ApiResponse.noConfusion hskip
    · rw [congrArg Prod.fst h2] at hskip
      exact ApiResponse.noConfusion hskip
    · apply hg
      rw [hd, ht, congrArg Prod.snd hpost] at hmem
      exact hmem
    · rw [congrArg Prod.fst h2] at hskip
      exact ApiResponse.noConfusion hskip

/-- Witness for C10: the `w10` run (one empty-SKU row, one unfindable SKU)
returns `ok` with zero rows, and the same-day re-run `w10second` with a
working variant lookup is not skipped. -/
theorem zero_row_ok_run_witness :
    (∃ ec errs, POST w10 = (.ok w10.todayDate 0 ec errs, w10.snapshotTable)) ∧
    (∀ d, (POST w10second).1 ≠ .skipped d) := by
  have h := zero_row_ok_run w10 "LOC1" ⟨"s", rfl, by decide, rfl⟩ (by decide) (by decide)
    (by decide) (by decide)
  exact ⟨h.1, h.2.2 w10second rfl rfl⟩

end Claims

end Snapshot
